import Mathlib

/-!
Shallow embedding of the RSVP tape-ticker playback engine and its pointer
input mapper (ReaderView engine refs, `loop`, `stopPlayback`, `startPlayback`,
`handlePointerMove`, `getWordWeight`).  Timestamps and durations are modelled
as rationals, WPM values and word indices as integers, matching the
JavaScript number semantics on the values the engine actually produces
(`Math.round`/`Math.floor` results are integers).
-/

-- constants.ts
def MIN_WPM : ℤ := 100
def MAX_WPM : ℤ := 1500
def MIN_FONT_SIZE : ℚ := 32
def MAX_FONT_SIZE : ℚ := 128
def RAMP_UP_DURATION_MS : ℚ := 1500
def REWIND_COUNT : ℤ := 3
def INITIAL_WPM : ℤ := 400
def INITIAL_FONT_SIZE : ℚ := 64

-- physics constants local to the reader component
def AUTO_REV_DELAY_MS : ℚ := 2000
def AUTO_REV_DURATION_MS : ℚ := 3000

/-- JS `Math.round`: round half toward positive infinity. -/
def jsRound (x : ℚ) : ℤ := ⌊x + 1/2⌋

/-- The app settings record (all five toggles; the engine reads
`cadence`, `autoRev` and `deadman`). -/
structure AppSettings where
  cadence : Bool
  fixation : Bool
  deadman : Bool
  autoRev : Bool
  southpaw : Bool
deriving Repr, DecidableEq

/-- The mutable engine record held in `engine = useRef({...})`. -/
structure EngineState where
  isPlaying : Bool
  startTime : ℚ
  accumulatedTime : ℚ
  lastFrameTime : ℚ
  wordIndex : ℤ
  targetWPM : ℤ
  currentWPM : ℤ
  isDragging : Bool
  lastDragTime : ℚ
  dragStartWPM : ℤ
deriving Repr, DecidableEq

/-- The `dragRef` record created on pointer-down. -/
structure DragSession where
  startX : ℚ
  startY : ℚ
  startWPM : ℤ
  startFontSize : ℚ
deriving Repr, DecidableEq

/-- Initial engine record (`useRef` initializer with
`book.progressIndex || 0` as the word index). -/
def initialEngine (progressIndex : ℤ) : EngineState :=
  { isPlaying := false
    startTime := 0
    accumulatedTime := 0
    lastFrameTime := 0
    wordIndex := progressIndex
    targetWPM := INITIAL_WPM
    currentWPM := 0
    isDragging := false
    lastDragTime := 0
    dragStartWPM := 0 }

-- -- UTILS: cadence weight --

/-- Characters kept by `word.replace(/[^a-zA-Z0-9.,!?;:]/g, '')`. -/
def isKeptChar (c : Char) : Bool :=
  c.isAlpha || c.isDigit ||
    c = '.' || c = ',' || c = '!' || c = '?' || c = ';' || c = ':'

/-- `getWordWeight`: cadence weight of a token.  An absent token
(JS `undefined`, falsy like the empty string) yields weight 1. -/
def getWordWeight (word : String) : ℚ :=
  if word = "" then 1
  else
    let cleanWord := String.mk (word.data.filter isKeptChar)
    let lastChar := word.back
    if lastChar = '.' ∨ lastChar = '!' ∨ lastChar = '?' then 11/5
    else if lastChar = ',' ∨ lastChar = ';' ∨ lastChar = ':' then 3/2
    else if cleanWord.length < 4 then 4/5
    else if cleanWord.length > 8 then 11/10
    else 1

/-- JS indexed access `words[idx]` with out-of-range reads yielding the
absent token (modelled as `""`, which `getWordWeight` maps to 1 exactly as
it maps `undefined` to 1). -/
def wordAt (words : List String) (idx : ℤ) : String :=
  if idx < 0 then "" else words.getD idx.toNat ""

-- -- INTERACTION HANDLERS --

/-- `stopPlayback`: no-op when already stopped; otherwise clear
`isPlaying`, rewind the word index and emit the single
`onUpdateProgress(book.id, newIndex)` call (returned as the event list). -/
def stopPlayback (bookId : String) (s : EngineState) :
    EngineState × List (String × ℤ) :=
  if !s.isPlaying then (s, [])
  else
    let newIndex := max 0 (s.wordIndex - REWIND_COUNT)
    ({ s with isPlaying := false, wordIndex := newIndex },
     [(bookId, newIndex)])

/-- `startPlayback`: reset the index when at (or past) the final word,
mark playing, stamp the clocks, zero the accumulator, seed the auto-rev
cruise setpoint and open the drag session. -/
def startPlayback (wordsLength : ℕ) (now clientX clientY fontSize : ℚ)
    (s : EngineState) : EngineState × DragSession :=
  let s := if (wordsLength : ℤ) - 1 ≤ s.wordIndex
    then { s with wordIndex := 0 } else s
  ({ s with isPlaying := true
            startTime := now
            lastFrameTime := now
            accumulatedTime := 0
            dragStartWPM := s.targetWPM },
   { startX := clientX
     startY := clientY
     startWPM := s.targetWPM
     startFontSize := fontSize })

/-- `handlePointerUp`: stop under the deadman policy, then close the
dragging state (`isDragging=false`, refresh `lastDragTime`, drop the
drag session). -/
def handlePointerUp (settings : AppSettings) (bookId : String) (now : ℚ)
    (s : EngineState) : EngineState × List (String × ℤ) × Option DragSession :=
  let stopped := if settings.deadman then stopPlayback bookId s else (s, [])
  ({ stopped.1 with isDragging := false, lastDragTime := now },
   stopped.2, none)

/-- `handlePointerMove`: ignored unless playing with an open drag session;
otherwise map the drag delta to a clamped WPM and font size, committing the
sticky (accelerating) or elastic (braking) speed change.  Returns the new
engine state and the rounded font size handed to `setFontSize`. -/
def handlePointerMove (clientX clientY now : ℚ) (dragRef : Option DragSession)
    (s : EngineState) : EngineState × Option ℤ :=
  if !s.isPlaying then (s, none)
  else match dragRef with
  | none => (s, none)
  | some drag =>
    let s := { s with isDragging := true, lastDragTime := now }
    let dx := clientX - drag.startX
    let dy := clientY - drag.startY
    let newWPM := (drag.startWPM : ℚ) + dx * 2
    let newWPM := min (max newWPM (MIN_WPM : ℚ)) (MAX_WPM : ℚ)
    let newFont := drag.startFontSize - dy * (1/2)
    let newFont := min (max newFont MIN_FONT_SIZE) MAX_FONT_SIZE
    if (drag.startWPM : ℚ) < newWPM then
      ({ s with targetWPM := jsRound newWPM, dragStartWPM := jsRound newWPM },
       some (jsRound newFont))
    else
      ({ s with targetWPM := jsRound newWPM }, some (jsRound newFont))

-- -- ANIMATION LOOP --

/-- `deltaTime` as the loop computes it: the falsy (`0`) `lastFrameTime` is
first initialized to the current timestamp, so the first frame sees a zero
delta. -/
def deltaTimeOf (timestamp : ℚ) (s : EngineState) : ℚ :=
  timestamp - (if s.lastFrameTime = 0 then timestamp else s.lastFrameTime)

/-- Ramp ease at a frame: `rampProgress = min(elapsed/RAMP_UP_DURATION_MS, 1)`,
`rampEase = 1 - (1 - rampProgress)^4` (quartic ease-out). -/
def rampEaseAt (startTime timestamp : ℚ) : ℚ :=
  let rampProgress := min ((timestamp - startTime) / RAMP_UP_DURATION_MS) 1
  1 - (1 - rampProgress)^4

/-- The auto-rev block of the loop (Module G): returns the frame's
`effectiveTarget` together with the (possibly snapped) `targetWPM`. -/
def autoRevStep (settings : AppSettings) (timestamp : ℚ) (s : EngineState) :
    ℚ × ℤ :=
  if settings.autoRev = true ∧ s.isDragging = false ∧
      s.targetWPM < s.dragStartWPM then
    let timeSinceDrag := timestamp - s.lastDragTime
    if AUTO_REV_DELAY_MS < timeSinceDrag then
      let revProgress :=
        min ((timeSinceDrag - AUTO_REV_DELAY_MS) / AUTO_REV_DURATION_MS) 1
      let revEase := 1 - (1 - revProgress)^3
      let effectiveTarget :=
        (s.targetWPM : ℚ) + ((s.dragStartWPM : ℚ) - (s.targetWPM : ℚ)) * revEase
      if 99/100 ≤ revProgress then (effectiveTarget, s.dragStartWPM)
      else (effectiveTarget, s.targetWPM)
    else ((s.targetWPM : ℚ), s.targetWPM)
  else ((s.targetWPM : ℚ), s.targetWPM)

/-- `finalWPM = Math.floor(effectiveTarget * rampEase)`, the frame's
instantaneous speed. -/
def finalWPMOf (settings : AppSettings) (timestamp : ℚ) (s : EngineState) : ℤ :=
  ⌊(autoRevStep settings timestamp s).1 * rampEaseAt s.startTime timestamp⌋

/-- Per-word dwell: `60000 / currentWPM`, multiplied by the cadence weight
of the current token when cadence is enabled. -/
def dwellMsOf (settings : AppSettings) (words : List String) (wpm : ℤ)
    (idx : ℤ) : ℚ :=
  let base := 60000 / (wpm : ℚ)
  if settings.cadence then base * getWordWeight (wordAt words idx) else base

/-- Everything one frame invocation produces: the new engine state, the
progress events emitted (via the embedded `stopPlayback` call), and the
values pushed to the display (`setDisplayWPM`, braking flag). -/
structure FrameResult where
  state : EngineState
  events : List (String × ℤ)
  displayWPM : ℤ
  isBraking : Bool
deriving Repr, DecidableEq

/-- The per-frame `loop` callback. -/
def loop (settings : AppSettings) (words : List String) (bookId : String)
    (timestamp : ℚ) (s0 : EngineState) : FrameResult :=
  let deltaTime := deltaTimeOf timestamp s0
  if s0.isPlaying = true then
    let effectiveTarget := (autoRevStep settings timestamp s0).1
    let finalWPM := finalWPMOf settings timestamp s0
    let braking :=
      decide (0 < s0.dragStartWPM ∧ effectiveTarget < (s0.dragStartWPM : ℚ))
    let s1 : EngineState :=
      { s0 with lastFrameTime := timestamp
                targetWPM := (autoRevStep settings timestamp s0).2
                currentWPM := finalWPM }
    if 0 < finalWPM then
      let msForThisWord := dwellMsOf settings words finalWPM s1.wordIndex
      let acc := s1.accumulatedTime + deltaTime
      if msForThisWord ≤ acc then
        let s2 := { s1 with accumulatedTime := acc - msForThisWord }
        let nextIndex := s2.wordIndex + 1
        if (words.length : ℤ) ≤ nextIndex then
          let stopped := stopPlayback bookId s2
          { state := stopped.1, events := stopped.2
            displayWPM := finalWPM, isBraking := braking }
        else
          { state := { s2 with wordIndex := nextIndex }, events := []
            displayWPM := finalWPM, isBraking := braking }
      else
        { state := { s1 with accumulatedTime := acc }, events := []
          displayWPM := finalWPM, isBraking := braking }
    else
      { state := s1, events := []
        displayWPM := finalWPM, isBraking := braking }
  else
    { state := { s0 with lastFrameTime := 0, currentWPM := 0 }, events := []
      displayWPM := s0.targetWPM, isBraking := false }

-- -- HELPER LEMMAS --

lemma jsRound_eq {x : ℚ} {n : ℤ} (h1 : (n : ℚ) ≤ x + 1/2) (h2 : x + 1/2 < n + 1) :
    jsRound x = n := by
  rw [jsRound, Int.floor_eq_iff]
  exact ⟨h1, h2⟩

lemma stopPlayback_currentWPM (bookId : String) (s : EngineState) :
    (stopPlayback bookId s).1.currentWPM = s.currentWPM := by
  rw [stopPlayback]; split <;> rfl

lemma stopPlayback_accumulatedTime (bookId : String) (s : EngineState) :
    (stopPlayback bookId s).1.accumulatedTime = s.accumulatedTime := by
  rw [stopPlayback]; split <;> rfl

lemma stopPlayback_lastFrameTime (bookId : String) (s : EngineState) :
    (stopPlayback bookId s).1.lastFrameTime = s.lastFrameTime := by
  rw [stopPlayback]; split <;> rfl

-- -- CLAIM C8 --

/-- C8: the cadence weight function is pure and returns 2.2 when the
original token's last character is `.`, `!` or `?`; 1.5 when it is `,`,
`;` or `:`; otherwise 0.8 when the stripped form has length `< 4`, 1.1
when length `> 8`, and 1.0 otherwise; 1.0 for an empty token; and the
five spec examples evaluate as stated. -/
theorem C8_cadence_weight :
    (∀ w : String, w ≠ "" → (w.back = '.' ∨ w.back = '!' ∨ w.back = '?') →
      getWordWeight w = 11/5)
    ∧ (∀ w : String, w ≠ "" → ¬(w.back = '.' ∨ w.back = '!' ∨ w.back = '?') →
        (w.back = ',' ∨ w.back = ';' ∨ w.back = ':') →
        getWordWeight w = 3/2)
    ∧ (∀ w : String, w ≠ "" → ¬(w.back = '.' ∨ w.back = '!' ∨ w.back = '?') →
        ¬(w.back = ',' ∨ w.back = ';' ∨ w.back = ':') →
        (String.mk (w.data.filter isKeptChar)).length < 4 →
        getWordWeight w = 4/5)
    ∧ (∀ w : String, w ≠ "" → ¬(w.back = '.' ∨ w.back = '!' ∨ w.back = '?') →
        ¬(w.back = ',' ∨ w.back = ';' ∨ w.back = ':') →
        ¬(String.mk (w.data.filter isKeptChar)).length < 4 →
        8 < (String.mk (w.data.filter isKeptChar)).length →
        getWordWeight w = 11/10)
    ∧ (∀ w : String, w ≠ "" → ¬(w.back = '.' ∨ w.back = '!' ∨ w.back = '?') →
        ¬(w.back = ',' ∨ w.back = ';' ∨ w.back = ':') →
        ¬(String.mk (w.data.filter isKeptChar)).length < 4 →
        ¬8 < (String.mk (w.data.filter isKeptChar)).length →
        getWordWeight w = 1)
    ∧ getWordWeight "" = 1
    ∧ getWordWeight "Hello." = 11/5 ∧ getWordWeight "cat," = 3/2
    ∧ getWordWeight "the" = 4/5 ∧ getWordWeight "information" = 11/10
    ∧ getWordWeight "table" = 1 := by
  refine ⟨?_, ?_, ?_, ?_, ?_, rfl, rfl, rfl, rfl, rfl, rfl⟩
  · intro w hne hlast
    rw [getWordWeight, if_neg hne]
    simp only []
    rw [if_pos hlast]
  · intro w hne h1 h2
    rw [getWordWeight, if_neg hne]
    simp only []
    rw [if_neg h1, if_pos h2]
  · intro w hne h1 h2 h3
    rw [getWordWeight, if_neg hne]
    simp only []
    rw [if_neg h1, if_neg h2, if_pos h3]
  · intro w hne h1 h2 h3 h4
    rw [getWordWeight, if_neg hne]
    simp only []
    rw [if_neg h1, if_neg h2, if_neg h3, if_pos h4]
  · intro w hne h1 h2 h3 h4
    rw [getWordWeight, if_neg hne]
    simp only []
    rw [if_neg h1, if_neg h2, if_neg h3, if_neg h4]

/-- C8 witness: the punctuation clause of the theorem applied at a
concrete token. -/
theorem C8_cadence_weight_witness : getWordWeight "Yes!" = 11/5 :=
  C8_cadence_weight.1 "Yes!" (by decide) (Or.inr (Or.inl (by decide)))

-- -- CLAIM C1 --

/-- The drag scenario of the spec: a session opened at `targetWPM = 400`. -/
def sC1 : EngineState := initialEngine 0

def startC1 : EngineState × DragSession := startPlayback 100 1000 0 0 64 sC1

/-- First drag-move, `dx = +50`. -/
def moveC1a : EngineState × Option ℤ :=
  handlePointerMove 50 0 1100 (some startC1.2) startC1.1

/-- Second drag-move, net `dx = +20` from the session origin. -/
def moveC1b : EngineState × Option ℤ :=
  handlePointerMove 20 0 1200 (some startC1.2) moveC1a.1

lemma jsRound_500 : jsRound 500 = 500 := jsRound_eq (by norm_num) (by norm_num)

lemma jsRound_440 : jsRound 440 = 440 := jsRound_eq (by norm_num) (by norm_num)

lemma jsRound_64 : jsRound 64 = 64 := jsRound_eq (by norm_num) (by norm_num)

lemma startC1_eval :
    startC1 = ({ isPlaying := true, startTime := 1000, accumulatedTime := 0,
                 lastFrameTime := 1000, wordIndex := 0, targetWPM := 400,
                 currentWPM := 0, isDragging := false, lastDragTime := 0,
                 dragStartWPM := 400 },
               { startX := 0, startY := 0, startWPM := 400,
                 startFontSize := 64 }) := by
  norm_num [startC1, startPlayback, sC1, initialEngine, INITIAL_WPM]

lemma moveC1a_eval :
    moveC1a = ({ isPlaying := true, startTime := 1000, accumulatedTime := 0,
                 lastFrameTime := 1000, wordIndex := 0, targetWPM := 500,
                 currentWPM := 0, isDragging := true, lastDragTime := 1100,
                 dragStartWPM := 500 }, some 64) := by
  rw [moveC1a, startC1_eval]
  norm_num [handlePointerMove, min_def, max_def, MIN_WPM, MAX_WPM,
    MIN_FONT_SIZE, MAX_FONT_SIZE, jsRound_500, jsRound_64]

lemma moveC1b_eval :
    moveC1b = ({ isPlaying := true, startTime := 1000, accumulatedTime := 0,
                 lastFrameTime := 1000, wordIndex := 0, targetWPM := 440,
                 currentWPM := 0, isDragging := true, lastDragTime := 1200,
                 dragStartWPM := 440 }, some 64) := by
  rw [moveC1b, moveC1a_eval, startC1_eval]
  norm_num [handlePointerMove, min_def, max_def, MIN_WPM, MAX_WPM,
    MIN_FONT_SIZE, MAX_FONT_SIZE, jsRound_440, jsRound_64]

/-- C1 counterexample: in the spec's drag session started at
`targetWPM = 400`, the first `+50px` move does yield 500/500, but the
second move (net `+20px` from the session origin, `newWPM = 440 > 400`)
takes the sticky branch, so the cruise setpoint becomes 440 — it does not
remain 500 as the claim states. -/
theorem C1_counterexample :
    moveC1a.1.targetWPM = 500 ∧ moveC1a.1.dragStartWPM = 500 ∧
    moveC1b.1.targetWPM = 440 ∧ moveC1b.1.dragStartWPM = 440 ∧
    moveC1b.1.dragStartWPM ≠ 500 := by
  rw [moveC1b_eval, moveC1a_eval]
  norm_num

/-- C1 (amended): the sticky/elastic decision compares the new WPM against
the session-start WPM; the first `+50px` move yields 500/500, and the net
`+20px` move gives `newWPM = 440 > 400`, which is sticky, so it sets
`targetWPM = 440` and `cruiseWPM = 440`.  Elastic braking (a move whose
clamped WPM does not exceed the session-start WPM) leaves the cruise
setpoint untouched. -/
theorem C1_sticky_elastic :
    (moveC1a.1.targetWPM = 500 ∧ moveC1a.1.dragStartWPM = 500 ∧
     moveC1b.1.targetWPM = 440 ∧ moveC1b.1.dragStartWPM = 440)
    ∧ (∀ (cx cy now : ℚ) (d : DragSession) (s : EngineState),
        s.isPlaying = true →
        min (max ((d.startWPM : ℚ) + (cx - d.startX) * 2) (MIN_WPM : ℚ))
            (MAX_WPM : ℚ) ≤ (d.startWPM : ℚ) →
        (handlePointerMove cx cy now (some d) s).1.dragStartWPM =
          s.dragStartWPM) := by
  constructor
  · rw [moveC1b_eval, moveC1a_eval]
    norm_num
  · intro cx cy now d s hp hle
    simp only [handlePointerMove, hp, Bool.not_true, Bool.false_eq_true,
      if_false]
    rw [if_neg (not_lt.mpr hle)]

/-- C1 witness: the elastic clause applied to a zero-delta drag-move from
the concrete session state. -/
theorem C1_witness :
    (handlePointerMove 0 0 1100 (some startC1.2) startC1.1).1.dragStartWPM =
      startC1.1.dragStartWPM :=
  C1_sticky_elastic.2 0 0 1100 startC1.2 startC1.1 rfl (by
    rw [startC1_eval]
    simp +decide [min_def, max_def, MIN_WPM, MAX_WPM])

-- -- CLAIM C2 --

/-- Settings for the frame-advance scenario: cadence off. -/
def cfgC2 : AppSettings :=
  { cadence := false, fixation := true, deadman := true, autoRev := true,
    southpaw := false }

def wordsC2 : List String := ["a", "b", "c", "d", "e"]

/-- A running state past the ramp window (`startTime = 0`), one second
behind the incoming frame timestamp `2600`. -/
def sC2 : EngineState :=
  { isPlaying := true, startTime := 0, accumulatedTime := 0,
    lastFrameTime := 1600, wordIndex := 0, targetWPM := 400,
    currentWPM := 400, isDragging := false, lastDragTime := 0,
    dragStartWPM := 400 }

lemma autoRevC2 : autoRevStep cfgC2 2600 sC2 = (400, 400) := by
  norm_num [autoRevStep, sC2, cfgC2]

lemma rampEaseC2 : rampEaseAt 0 2600 = 1 := by
  norm_num [rampEaseAt, RAMP_UP_DURATION_MS, min_def]

lemma finalWPMC2 : finalWPMOf cfgC2 2600 sC2 = 400 := by
  rw [finalWPMOf, autoRevC2]
  simp only [sC2]
  rw [rampEaseC2]
  rw [Int.floor_eq_iff]
  constructor <;> norm_num

/-- C2 counterexample: with `deltaTime = 1000` and a word dwell of 150 ms,
the claim's while-loop semantics would advance the index six times
(leaving 100 ms); the code advances it exactly once and leaves 850 ms in
the accumulator — more than a whole dwell. -/
theorem C2_counterexample :
    (loop cfgC2 wordsC2 "bk" 2600 sC2).state.wordIndex = 1
    ∧ (loop cfgC2 wordsC2 "bk" 2600 sC2).state.wordIndex ≠ 6
    ∧ (loop cfgC2 wordsC2 "bk" 2600 sC2).state.accumulatedTime = 850
    ∧ dwellMsOf cfgC2 wordsC2 (finalWPMOf cfgC2 2600 sC2) 1 ≤ 850 := by
  rw [loop]
  rw [finalWPMC2, autoRevC2]
  norm_num [sC2, cfgC2, wordsC2, deltaTimeOf, dwellMsOf, finalWPMC2]

/-- C2 (amended): after adding `deltaTime`, the per-frame update advances
`wordIndex` at most once: when a whole dwell is contained in the
accumulator it subtracts that dwell once and advances once, leaving any
excess for subsequent frames, so a single invocation with a large
`deltaTime` still advances the index by at most one. -/
theorem C2_at_most_one_advance (settings : AppSettings) (words : List String)
    (bookId : String) (ts : ℚ) (s : EngineState) (hp : s.isPlaying = true)
    (hidx : s.wordIndex + 1 < (words.length : ℤ)) :
    ((loop settings words bookId ts s).state.wordIndex = s.wordIndex
      ∨ (loop settings words bookId ts s).state.wordIndex = s.wordIndex + 1)
    ∧ (0 < finalWPMOf settings ts s →
        dwellMsOf settings words (finalWPMOf settings ts s) s.wordIndex ≤
          s.accumulatedTime + deltaTimeOf ts s →
        (loop settings words bookId ts s).state.wordIndex = s.wordIndex + 1
        ∧ (loop settings words bookId ts s).state.accumulatedTime =
            s.accumulatedTime + deltaTimeOf ts s -
              dwellMsOf settings words (finalWPMOf settings ts s) s.wordIndex) := by
  simp only [loop, hp, if_true]
  by_cases hw : 0 < finalWPMOf settings ts s
  · rw [if_pos hw]
    by_cases hd : dwellMsOf settings words (finalWPMOf settings ts s) s.wordIndex ≤
        s.accumulatedTime + deltaTimeOf ts s
    · rw [if_pos hd, if_neg (not_le.mpr hidx)]
      exact ⟨Or.inr rfl, fun _ _ => ⟨rfl, rfl⟩⟩
    · rw [if_neg hd]
      exact ⟨Or.inl rfl, fun _ h => absurd h hd⟩
  · rw [if_neg hw]
    exact ⟨Or.inl rfl, fun h => absurd h hw⟩

/-- C2 witness: the at-most-one-advance theorem applied to the concrete
large-delta frame. -/
theorem C2_witness :
    (loop cfgC2 wordsC2 "bk" 2600 sC2).state.wordIndex = sC2.wordIndex
      ∨ (loop cfgC2 wordsC2 "bk" 2600 sC2).state.wordIndex = sC2.wordIndex + 1 :=
  (C2_at_most_one_advance cfgC2 wordsC2 "bk" 2600 sC2 rfl (by decide)).1

-- -- CLAIM C3 --

/-- A playing state carrying nonzero timing residue. -/
def sC3 : EngineState :=
  { isPlaying := true, startTime := 100, accumulatedTime := 123,
    lastFrameTime := 777, wordIndex := 10, targetWPM := 400,
    currentWPM := 350, isDragging := false, lastDragTime := 50,
    dragStartWPM := 400 }

/-- C3 counterexample: the Stop transition leaves `accumulatedTime` and
`lastFrameTime` untouched — it does not reset them as part of the
transition itself. -/
theorem C3_counterexample :
    (stopPlayback "bk" sC3).1.accumulatedTime = 123
    ∧ (stopPlayback "bk" sC3).1.accumulatedTime ≠ 0
    ∧ (stopPlayback "bk" sC3).1.lastFrameTime = 777
    ∧ (stopPlayback "bk" sC3).1.lastFrameTime ≠ 0 := by
  norm_num [stopPlayback, sC3]

/-- C3 (amended): Stop itself preserves `accumulatedTime` and
`lastFrameTime`; no residual timing state reaches the next Start because
the Start transition sets `accumulatedTime = 0` and `lastFrameTime = now`
itself. -/
theorem C3_stop_does_not_reset_timing :
    (∀ (bookId : String) (s : EngineState),
      (stopPlayback bookId s).1.accumulatedTime = s.accumulatedTime
      ∧ (stopPlayback bookId s).1.lastFrameTime = s.lastFrameTime)
    ∧ (∀ (n : ℕ) (now cx cy fs : ℚ) (s : EngineState),
      (startPlayback n now cx cy fs s).1.accumulatedTime = 0
      ∧ (startPlayback n now cx cy fs s).1.lastFrameTime = now) := by
  constructor
  · intro bookId s
    exact ⟨stopPlayback_accumulatedTime bookId s,
      stopPlayback_lastFrameTime bookId s⟩
  · intro n now cx cy fs s
    exact ⟨rfl, rfl⟩

/-- C3 witness: the preservation clause at the concrete playing state. -/
theorem C3_witness :
    (stopPlayback "bk" sC3).1.accumulatedTime = sC3.accumulatedTime
    ∧ (stopPlayback "bk" sC3).1.lastFrameTime = sC3.lastFrameTime :=
  C3_stop_does_not_reset_timing.1 "bk" sC3

-- -- CLAIM C6 --

/-- C6: Stop is idempotent: while stopped it is a complete no-op emitting
no progress event, and a second Stop right after a first one changes
nothing and emits nothing. -/
theorem C6_stop_idempotent (bookId : String) :
    (∀ s : EngineState, s.isPlaying = false → stopPlayback bookId s = (s, []))
    ∧ (∀ s : EngineState,
        stopPlayback bookId (stopPlayback bookId s).1 =
          ((stopPlayback bookId s).1, [])) := by
  have h1 : ∀ s : EngineState, s.isPlaying = false →
      stopPlayback bookId s = (s, []) := by
    intro s h
    rw [stopPlayback, if_pos (by rw [h]; rfl)]
  refine ⟨h1, fun s => ?_⟩
  by_cases hs : s.isPlaying
  · apply h1
    rw [stopPlayback, if_neg (by rw [hs]; exact fun h => nomatch h)]
  · rw [h1 s (by simpa using hs)]
    exact h1 s (by simpa using hs)

/-- C6 witness: Stop applied to a concrete stopped state. -/
theorem C6_witness :
    stopPlayback "bk" (initialEngine 7) = (initialEngine 7, []) :=
  (C6_stop_idempotent "bk").1 (initialEngine 7) rfl

-- -- CLAIM C10 --

/-- C10: a frame while stopped leaves `wordIndex`, `accumulatedTime`,
`targetWPM` and the cruise setpoint unchanged, emits nothing, and sets
`lastFrameTime` to 0 and `currentWPM` to 0, so time elapsed while stopped
cannot feed `deltaTime` after the next Start. -/
theorem C10_stopped_frame (settings : AppSettings) (words : List String)
    (bookId : String) (ts : ℚ) (s : EngineState) (h : s.isPlaying = false) :
    (loop settings words bookId ts s).state.wordIndex = s.wordIndex
    ∧ (loop settings words bookId ts s).state.accumulatedTime = s.accumulatedTime
    ∧ (loop settings words bookId ts s).state.targetWPM = s.targetWPM
    ∧ (loop settings words bookId ts s).state.dragStartWPM = s.dragStartWPM
    ∧ (loop settings words bookId ts s).state.lastFrameTime = 0
    ∧ (loop settings words bookId ts s).state.currentWPM = 0
    ∧ (loop settings words bookId ts s).events = [] := by
  rw [loop, if_neg (by rw [h]; exact fun hc => nomatch hc)]
  exact ⟨rfl, rfl, rfl, rfl, rfl, rfl, rfl⟩

/-- C10 witness: the stopped-frame theorem at a concrete stopped state. -/
theorem C10_witness :
    (loop cfgC2 wordsC2 "bk" 500 (initialEngine 2)).state.lastFrameTime = 0
    ∧ (loop cfgC2 wordsC2 "bk" 500 (initialEngine 2)).state.currentWPM = 0 :=
  ⟨(C10_stopped_frame cfgC2 wordsC2 "bk" 500 (initialEngine 2) rfl).2.2.2.2.1,
   (C10_stopped_frame cfgC2 wordsC2 "bk" 500 (initialEngine 2) rfl).2.2.2.2.2.1⟩

-- -- CLAIM C5 --

/-- C5: every Stop that takes effect — explicit, or triggered by the
frame update reaching the end of the word sequence — clears `isPlaying`,
rewinds `wordIndex` to `max 0 (wordIndex - REWIND_COUNT)` and invokes the
progress callback exactly once with the book id and the rewound index. -/
theorem C5_stop_transition (bookId : String) :
    (∀ s : EngineState, s.isPlaying = true →
      (stopPlayback bookId s).1.isPlaying = false
      ∧ (stopPlayback bookId s).1.wordIndex = max 0 (s.wordIndex - REWIND_COUNT)
      ∧ (stopPlayback bookId s).2 = [(bookId, max 0 (s.wordIndex - REWIND_COUNT))])
    ∧ (∀ (settings : AppSettings) (words : List String) (ts : ℚ)
        (s : EngineState), s.isPlaying = true →
        0 < finalWPMOf settings ts s →
        dwellMsOf settings words (finalWPMOf settings ts s) s.wordIndex ≤
          s.accumulatedTime + deltaTimeOf ts s →
        (words.length : ℤ) ≤ s.wordIndex + 1 →
        (loop settings words bookId ts s).state.isPlaying = false
        ∧ (loop settings words bookId ts s).state.wordIndex =
            max 0 (s.wordIndex - REWIND_COUNT)
        ∧ (loop settings words bookId ts s).events =
            [(bookId, max 0 (s.wordIndex - REWIND_COUNT))]) := by
  have hstop : ∀ s : EngineState, s.isPlaying = true →
      (stopPlayback bookId s).1.isPlaying = false
      ∧ (stopPlayback bookId s).1.wordIndex = max 0 (s.wordIndex - REWIND_COUNT)
      ∧ (stopPlayback bookId s).2 = [(bookId, max 0 (s.wordIndex - REWIND_COUNT))] := by
    intro s hp
    rw [stopPlayback, if_neg (by rw [hp]; exact fun h => nomatch h)]
    exact ⟨rfl, rfl, rfl⟩
  refine ⟨hstop, ?_⟩
  intro settings words ts s hp hw hd hend
  simp only [loop, hp, if_true]
  rw [if_pos hw, if_pos hd, if_pos hend]
  exact hstop _ rfl

/-- C5 witness: the explicit-Stop clause at a concrete playing state. -/
theorem C5_witness :
    (stopPlayback "bk" sC3).1.isPlaying = false
    ∧ (stopPlayback "bk" sC3).1.wordIndex = max 0 (sC3.wordIndex - REWIND_COUNT)
    ∧ (stopPlayback "bk" sC3).2 = [("bk", max 0 (sC3.wordIndex - REWIND_COUNT))] :=
  (C5_stop_transition "bk").1 sC3 rfl

-- -- CLAIM C9 --

lemma stopPlayback_wordIndex_bounds (bookId : String) (L : ℤ)
    (t : EngineState) (h0 : 0 ≤ t.wordIndex) (h1 : t.wordIndex < L)
    (hL : 0 < L) :
    0 ≤ (stopPlayback bookId t).1.wordIndex
    ∧ (stopPlayback bookId t).1.wordIndex < L := by
  rw [stopPlayback]
  split
  · exact ⟨h0, h1⟩
  · dsimp only
    refine ⟨le_max_left 0 _, max_lt hL ?_⟩
    simp only [REWIND_COUNT]
    omega

/-- C9: for a non-empty word sequence the invariant
`0 ≤ wordIndex < wordCount` is preserved by Start (which also resets the
index to 0 from at-or-past the final word), by the per-frame update, and
by Stop. -/
theorem C9_word_index_invariant (settings : AppSettings) (words : List String)
    (bookId : String) (hn : 1 ≤ words.length) (s : EngineState)
    (h0 : 0 ≤ s.wordIndex) (h1 : s.wordIndex < (words.length : ℤ)) :
    (∀ now cx cy fs : ℚ,
      0 ≤ (startPlayback words.length now cx cy fs s).1.wordIndex
      ∧ (startPlayback words.length now cx cy fs s).1.wordIndex <
          (words.length : ℤ))
    ∧ (∀ now cx cy fs : ℚ, (words.length : ℤ) - 1 ≤ s.wordIndex →
        (startPlayback words.length now cx cy fs s).1.wordIndex = 0)
    ∧ (∀ ts : ℚ,
        0 ≤ (loop settings words bookId ts s).state.wordIndex
        ∧ (loop settings words bookId ts s).state.wordIndex <
            (words.length : ℤ))
    ∧ (0 ≤ (stopPlayback bookId s).1.wordIndex
       ∧ (stopPlayback bookId s).1.wordIndex < (words.length : ℤ)) := by
  have hnz : (0 : ℤ) < (words.length : ℤ) := by exact_mod_cast hn
  refine ⟨?_, ?_, ?_, stopPlayback_wordIndex_bounds bookId _ s h0 h1 hnz⟩
  · intro now cx cy fs
    rw [startPlayback]
    simp only []
    split
    · exact ⟨le_refl 0, hnz⟩
    · exact ⟨h0, h1⟩
  · intro now cx cy fs hge
    rw [startPlayback]
    simp only []
    rw [if_pos hge]
  · intro ts
    rw [loop]
    split
    · dsimp only
      split
      · split
        · split
          · exact stopPlayback_wordIndex_bounds bookId _ _ h0 h1 hnz
          · rename_i hnotend
            dsimp only at hnotend ⊢
            omega
        · exact ⟨h0, h1⟩
      · exact ⟨h0, h1⟩
    · exact ⟨h0, h1⟩

/-- C9 witness: the invariant theorem's Stop clause at a concrete state
sitting on the last valid index of a three-word sequence. -/
theorem C9_witness :
    0 ≤ (stopPlayback "bk" (initialEngine 2)).1.wordIndex
    ∧ (stopPlayback "bk" (initialEngine 2)).1.wordIndex <
        ((["x", "y", "z"] : List String).length : ℤ) :=
  (C9_word_index_invariant cfgC2 ["x", "y", "z"] "bk" (by decide)
    (initialEngine 2) (by decide) (by decide)).2.2.2

-- -- CLAIM C7 --

lemma RAMP_UP_DURATION_MS_pos : (0 : ℚ) < RAMP_UP_DURATION_MS := by
  norm_num [RAMP_UP_DURATION_MS]

lemma rampEaseAt_le_one (t ts : ℚ) : rampEaseAt t ts ≤ 1 := by
  rw [rampEaseAt]
  have hp : min ((ts - t) / RAMP_UP_DURATION_MS) 1 ≤ 1 := min_le_right _ _
  have h4 : 0 ≤ (1 - min ((ts - t) / RAMP_UP_DURATION_MS) 1)^4 :=
    pow_nonneg (by linarith) 4
  linarith

lemma rampEaseAt_nonneg (t ts : ℚ) (h : t ≤ ts) : 0 ≤ rampEaseAt t ts := by
  rw [rampEaseAt]
  have h0 : 0 ≤ (ts - t) / RAMP_UP_DURATION_MS :=
    div_nonneg (by linarith) RAMP_UP_DURATION_MS_pos.le
  have hp0 : 0 ≤ min ((ts - t) / RAMP_UP_DURATION_MS) 1 :=
    le_min h0 (by norm_num)
  have hp1 : min ((ts - t) / RAMP_UP_DURATION_MS) 1 ≤ 1 := min_le_right _ _
  have h4 : (1 - min ((ts - t) / RAMP_UP_DURATION_MS) 1)^4 ≤ 1 :=
    pow_le_one₀ (by linarith) (by linarith)
  linarith

lemma rampEaseAt_mono (t ts₁ ts₂ : ℚ) (h1 : t ≤ ts₁) (h12 : ts₁ ≤ ts₂) :
    rampEaseAt t ts₁ ≤ rampEaseAt t ts₂ := by
  rw [rampEaseAt, rampEaseAt]
  have hd : (ts₁ - t) / RAMP_UP_DURATION_MS ≤ (ts₂ - t) / RAMP_UP_DURATION_MS :=
    (div_le_div_iff_of_pos_right RAMP_UP_DURATION_MS_pos).mpr (by linarith)
  have hpm : min ((ts₁ - t) / RAMP_UP_DURATION_MS) 1 ≤
      min ((ts₂ - t) / RAMP_UP_DURATION_MS) 1 := min_le_min hd le_rfl
  have hp20 : 0 ≤ min ((ts₂ - t) / RAMP_UP_DURATION_MS) 1 :=
    le_min (div_nonneg (by linarith) RAMP_UP_DURATION_MS_pos.le) (by norm_num)
  have hp21 : min ((ts₂ - t) / RAMP_UP_DURATION_MS) 1 ≤ 1 := min_le_right _ _
  have h4 : (1 - min ((ts₂ - t) / RAMP_UP_DURATION_MS) 1)^4 ≤
      (1 - min ((ts₁ - t) / RAMP_UP_DURATION_MS) 1)^4 :=
    pow_le_pow_left₀ (by linarith) (by linarith) 4
  linarith

lemma rampEaseAt_self (t : ℚ) : rampEaseAt t t = 0 := by
  rw [rampEaseAt]
  norm_num [RAMP_UP_DURATION_MS, min_def]

lemma rampEaseAt_eq_one (t ts : ℚ) (h : t + RAMP_UP_DURATION_MS ≤ ts) :
    rampEaseAt t ts = 1 := by
  rw [rampEaseAt]
  have h1 : (1 : ℚ) ≤ (ts - t) / RAMP_UP_DURATION_MS :=
    (one_le_div RAMP_UP_DURATION_MS_pos).mpr (by linarith)
  rw [min_eq_right h1]
  norm_num

lemma autoRevStep_of_cruise (settings : AppSettings) (ts : ℚ)
    (s : EngineState) (h : s.targetWPM = s.dragStartWPM) :
    autoRevStep settings ts s = ((s.targetWPM : ℚ), s.targetWPM) := by
  rw [autoRevStep, if_neg]
  rintro ⟨-, -, hlt⟩
  rw [h] at hlt
  exact lt_irrefl _ hlt

lemma finalWPMOf_of_cruise (settings : AppSettings) (ts : ℚ)
    (s : EngineState) (h : s.targetWPM = s.dragStartWPM) :
    finalWPMOf settings ts s =
      ⌊(s.targetWPM : ℚ) * rampEaseAt s.startTime ts⌋ := by
  rw [finalWPMOf, autoRevStep_of_cruise settings ts s h]

/-- C7: in a Running session with no drag and the effective target pinned
at `targetWPM` (cruise equals target), the per-frame `currentWPM` is
monotonically non-decreasing in the timestamp, is 0 at the Start
timestamp, equals `targetWPM` once `RAMP_UP_DURATION_MS` has elapsed,
never exceeds `targetWPM`, and is exactly the value the frame update
stores in `currentWPM`. -/
theorem C7_ramp_monotone (settings : AppSettings) (s : EngineState)
    (hmin : MIN_WPM ≤ s.targetWPM) (_hmax : s.targetWPM ≤ MAX_WPM)
    (_hnd : s.isDragging = false) (hcr : s.targetWPM = s.dragStartWPM) :
    (∀ ts₁ ts₂ : ℚ, s.startTime ≤ ts₁ → ts₁ ≤ ts₂ →
      finalWPMOf settings ts₁ s ≤ finalWPMOf settings ts₂ s)
    ∧ finalWPMOf settings s.startTime s = 0
    ∧ (∀ ts : ℚ, s.startTime + RAMP_UP_DURATION_MS ≤ ts →
        finalWPMOf settings ts s = s.targetWPM)
    ∧ (∀ ts : ℚ, finalWPMOf settings ts s ≤ s.targetWPM)
    ∧ (∀ (words : List String) (bookId : String) (ts : ℚ),
        s.isPlaying = true →
        (loop settings words bookId ts s).state.currentWPM =
          finalWPMOf settings ts s) := by
  have ht0 : (0 : ℚ) ≤ (s.targetWPM : ℚ) := by
    have : (0 : ℤ) ≤ s.targetWPM := le_trans (by norm_num [MIN_WPM]) hmin
    exact_mod_cast this
  refine ⟨?_, ?_, ?_, ?_, ?_⟩
  · intro ts₁ ts₂ h1 h12
    rw [finalWPMOf_of_cruise settings ts₁ s hcr,
      finalWPMOf_of_cruise settings ts₂ s hcr]
    exact Int.floor_le_floor
      (mul_le_mul_of_nonneg_left (rampEaseAt_mono s.startTime ts₁ ts₂ h1 h12) ht0)
  · rw [finalWPMOf_of_cruise settings s.startTime s hcr, rampEaseAt_self,
      mul_zero, Int.floor_zero]
  · intro ts h
    rw [finalWPMOf_of_cruise settings ts s hcr,
      rampEaseAt_eq_one s.startTime ts h, mul_one, Int.floor_intCast]
  · intro ts
    rw [finalWPMOf_of_cruise settings ts s hcr]
    calc ⌊(s.targetWPM : ℚ) * rampEaseAt s.startTime ts⌋
        ≤ ⌊((s.targetWPM : ℤ) : ℚ)⌋ := Int.floor_le_floor
          (mul_le_of_le_one_right ht0 (rampEaseAt_le_one s.startTime ts))
      _ = s.targetWPM := Int.floor_intCast _
  · intro words bookId ts hp
    simp only [loop, hp, if_true]
    split
    · split
      · split
        · exact (stopPlayback_currentWPM bookId _).trans rfl
        · rfl
      · rfl
    · rfl

/-- A Running state with cruise equal to target, used to instantiate the
ramp theorem. -/
def sC7 : EngineState :=
  { isPlaying := true, startTime := 0, accumulatedTime := 0,
    lastFrameTime := 0, wordIndex := 0, targetWPM := 400,
    currentWPM := 0, isDragging := false, lastDragTime := 0,
    dragStartWPM := 400 }

/-- C7 witness: at the end of the ramp window the instantaneous speed is
exactly the target. -/
theorem C7_witness : finalWPMOf cfgC2 1500 sC7 = sC7.targetWPM :=
  (C7_ramp_monotone cfgC2 sC7 (by decide) (by decide) rfl rfl).2.2.1 1500
    (by simp [sC7, RAMP_UP_DURATION_MS])

-- -- CLAIM C4 --

lemma AUTO_REV_DURATION_MS_pos : (0 : ℚ) < AUTO_REV_DURATION_MS := by
  norm_num [AUTO_REV_DURATION_MS]

lemma autoRevStep_fst_no_delay (settings : AppSettings) (ts : ℚ)
    (s : EngineState) (har : settings.autoRev = true)
    (hd : s.isDragging = false) (hlt : s.targetWPM < s.dragStartWPM)
    (hnd : ¬AUTO_REV_DELAY_MS < ts - s.lastDragTime) :
    (autoRevStep settings ts s).1 = (s.targetWPM : ℚ) := by
  rw [autoRevStep, if_pos ⟨har, hd, hlt⟩]
  rw [if_neg hnd]

lemma autoRevStep_fst_delay (settings : AppSettings) (ts : ℚ)
    (s : EngineState) (har : settings.autoRev = true)
    (hd : s.isDragging = false) (hlt : s.targetWPM < s.dragStartWPM)
    (hdel : AUTO_REV_DELAY_MS < ts - s.lastDragTime) :
    (autoRevStep settings ts s).1 =
      (s.targetWPM : ℚ) + ((s.dragStartWPM : ℚ) - (s.targetWPM : ℚ)) *
        (1 - (1 - min ((ts - s.lastDragTime - AUTO_REV_DELAY_MS) /
          AUTO_REV_DURATION_MS) 1)^3) := by
  rw [autoRevStep, if_pos ⟨har, hd, hlt⟩]
  rw [if_pos hdel]
  simp only []
  split <;> rfl

lemma autoRevStep_snd_snap (settings : AppSettings) (ts : ℚ)
    (s : EngineState) (har : settings.autoRev = true)
    (hd : s.isDragging = false) (hlt : s.targetWPM < s.dragStartWPM)
    (hdel : AUTO_REV_DELAY_MS < ts - s.lastDragTime)
    (hsnap : 99/100 ≤ min ((ts - s.lastDragTime - AUTO_REV_DELAY_MS) /
      AUTO_REV_DURATION_MS) 1) :
    (autoRevStep settings ts s).2 = s.dragStartWPM := by
  rw [autoRevStep, if_pos ⟨har, hd, hlt⟩]
  rw [if_pos hdel]
  simp only []
  rw [if_pos hsnap]

/-- C4: with auto-rev on, cruise 500, target braked to 300 and the drag
released: while `timeSinceDrag ≤ AUTO_REV_DELAY_MS` the effective target
stays 300; past the delay it equals
`300 + 200·(1 − (1 − revProgress)³)` with
`revProgress = min((timeSinceDrag − delay)/duration, 1)`, rises
monotonically, never exceeds 500; once a frame sees
`revProgress ≥ 0.99` the `targetWPM` is snapped to the cruise 500, after
which (target = cruise) the effective target is exactly 500. -/
theorem C4_auto_rev (settings : AppSettings) (s : EngineState)
    (har : settings.autoRev = true) (hd : s.isDragging = false)
    (ht : s.targetWPM = 300) (hc : s.dragStartWPM = 500) :
    (∀ ts : ℚ, ts - s.lastDragTime ≤ AUTO_REV_DELAY_MS →
      (autoRevStep settings ts s).1 = 300)
    ∧ (∀ ts : ℚ, AUTO_REV_DELAY_MS < ts - s.lastDragTime →
        (autoRevStep settings ts s).1 =
          300 + 200 * (1 - (1 - min ((ts - s.lastDragTime -
            AUTO_REV_DELAY_MS) / AUTO_REV_DURATION_MS) 1)^3))
    ∧ (∀ ts₁ ts₂ : ℚ, ts₁ ≤ ts₂ →
        (autoRevStep settings ts₁ s).1 ≤ (autoRevStep settings ts₂ s).1)
    ∧ (∀ ts : ℚ, (autoRevStep settings ts s).1 ≤ 500)
    ∧ (∀ ts : ℚ, AUTO_REV_DELAY_MS < ts - s.lastDragTime →
        99/100 ≤ min ((ts - s.lastDragTime - AUTO_REV_DELAY_MS) /
          AUTO_REV_DURATION_MS) 1 →
        (autoRevStep settings ts s).2 = 500)
    ∧ (∀ (ts : ℚ) (s' : EngineState), s'.targetWPM = 500 →
        s'.dragStartWPM = 500 → (autoRevStep settings ts s').1 = 500) := by
  have hlt : s.targetWPM < s.dragStartWPM := by rw [ht, hc]; norm_num
  have hA : ∀ ts : ℚ, ts - s.lastDragTime ≤ AUTO_REV_DELAY_MS →
      (autoRevStep settings ts s).1 = 300 := by
    intro ts h
    rw [autoRevStep_fst_no_delay settings ts s har hd hlt (not_lt.mpr h), ht]
    norm_num
  have hB : ∀ ts : ℚ, AUTO_REV_DELAY_MS < ts - s.lastDragTime →
      (autoRevStep settings ts s).1 =
        300 + 200 * (1 - (1 - min ((ts - s.lastDragTime -
          AUTO_REV_DELAY_MS) / AUTO_REV_DURATION_MS) 1)^3) := by
    intro ts h
    rw [autoRevStep_fst_delay settings ts s har hd hlt h, ht, hc]
    push_cast
    ring
  have hprog : ∀ ts : ℚ, AUTO_REV_DELAY_MS < ts - s.lastDragTime →
      0 ≤ min ((ts - s.lastDragTime - AUTO_REV_DELAY_MS) /
        AUTO_REV_DURATION_MS) 1
      ∧ min ((ts - s.lastDragTime - AUTO_REV_DELAY_MS) /
          AUTO_REV_DURATION_MS) 1 ≤ 1 := by
    intro ts h
    refine ⟨le_min ?_ (by norm_num), min_le_right _ _⟩
    exact div_nonneg (by linarith) AUTO_REV_DURATION_MS_pos.le
  refine ⟨hA, hB, ?_, ?_, ?_, ?_⟩
  · intro ts₁ ts₂ h12
    by_cases h2 : AUTO_REV_DELAY_MS < ts₂ - s.lastDragTime
    · rw [hB ts₂ h2]
      obtain ⟨hp20, hp21⟩ := hprog ts₂ h2
      by_cases h1 : AUTO_REV_DELAY_MS < ts₁ - s.lastDragTime
      · rw [hB ts₁ h1]
        obtain ⟨hp10, hp11⟩ := hprog ts₁ h1
        have hdm : (ts₁ - s.lastDragTime - AUTO_REV_DELAY_MS) /
            AUTO_REV_DURATION_MS ≤ (ts₂ - s.lastDragTime -
              AUTO_REV_DELAY_MS) / AUTO_REV_DURATION_MS :=
          (div_le_div_iff_of_pos_right AUTO_REV_DURATION_MS_pos).mpr
            (by linarith)
        have hpm : min ((ts₁ - s.lastDragTime - AUTO_REV_DELAY_MS) /
            AUTO_REV_DURATION_MS) 1 ≤ min ((ts₂ - s.lastDragTime -
              AUTO_REV_DELAY_MS) / AUTO_REV_DURATION_MS) 1 :=
          min_le_min hdm le_rfl
        have hcube : (1 - min ((ts₂ - s.lastDragTime - AUTO_REV_DELAY_MS) /
            AUTO_REV_DURATION_MS) 1)^3 ≤ (1 - min ((ts₁ - s.lastDragTime -
              AUTO_REV_DELAY_MS) / AUTO_REV_DURATION_MS) 1)^3 :=
          pow_le_pow_left₀ (by linarith) (by linarith) 3
        linarith
      · rw [hA ts₁ (not_lt.mp h1)]
        have hcube : (1 - min ((ts₂ - s.lastDragTime - AUTO_REV_DELAY_MS) /
            AUTO_REV_DURATION_MS) 1)^3 ≤ 1 :=
          pow_le_one₀ (by linarith) (by linarith)
        linarith
    · have h1 : ¬AUTO_REV_DELAY_MS < ts₁ - s.lastDragTime := by
        intro hcon
        exact h2 (by linarith)
      rw [hA ts₁ (not_lt.mp h1), hA ts₂ (not_lt.mp h2)]
  · intro ts
    by_cases h : AUTO_REV_DELAY_MS < ts - s.lastDragTime
    · rw [hB ts h]
      obtain ⟨hp0, hp1⟩ := hprog ts h
      have hcube : 0 ≤ (1 - min ((ts - s.lastDragTime - AUTO_REV_DELAY_MS) /
          AUTO_REV_DURATION_MS) 1)^3 := pow_nonneg (by linarith) 3
      linarith
    · rw [hA ts (not_lt.mp h)]
      norm_num
  · intro ts hdel hsnap
    rw [autoRevStep_snd_snap settings ts s har hd hlt hdel hsnap, hc]
  · intro ts s' ht' hc'
    rw [autoRevStep_of_cruise settings ts s' (ht'.trans hc'.symm), ht']
    norm_num

/-- The braked-and-released state of the C4 scenario. -/
def sC4 : EngineState :=
  { isPlaying := true, startTime := 0, accumulatedTime := 0,
    lastFrameTime := 0, wordIndex := 0, targetWPM := 300,
    currentWPM := 300, isDragging := false, lastDragTime := 0,
    dragStartWPM := 500 }

lemma sC4_inside_delay : (1000 : ℚ) - sC4.lastDragTime ≤ AUTO_REV_DELAY_MS := by
  norm_num [sC4, AUTO_REV_DELAY_MS]

/-- C4 witness: inside the delay window the effective target is still the
braked 300. -/
theorem C4_witness : (autoRevStep cfgC2 1000 sC4).1 = 300 :=
  (C4_auto_rev cfgC2 sC4 rfl rfl rfl rfl).1 1000 sC4_inside_delay
